import Mathlib

/-
  Verification development for the Meridian (SimpleBEX) repository.

  The repository is a thin wrapper around the Babylon.js engine: it reads a JSON
  project manifest and translates its entries into engine calls.  The embedding
  below models, over the reals:
    * the Babylon.js math routines the repository calls
      (Matrix.FromArray, Matrix.transpose, Matrix.decompose, Matrix.RotationY,
       Matrix.multiply, Quaternion.FromRotationMatrix, Quaternion.toRotationMatrix,
       Quaternion.toEulerAngles, Vector3.TransformCoordinates), translated from the
      engine's published implementations, which are the external collaborator the
      source delegates to;
    * the repository's own functions (camera.js applyTransformation / setupCamera,
      light.js setupLights and the create* factories, getPositionFromMatrix,
      getPositionAndDirectionFromMatrix, assetManager.js AssetManager,
      utility.js loadJSON, scene.js Scene.initialize / loadAssets,
      app.js SimpleBEXApp.initialize).

  JavaScript numbers are modelled as real numbers; stateful and asynchronous code
  is modelled by explicit state passing, and thrown exceptions by Option/Except
  style results.
-/

namespace Meridian

/-- A 3-component vector, modelling BABYLON.Vector3. -/
structure Vec3 where
  x : ℝ
  y : ℝ
  z : ℝ

/-- A quaternion, modelling BABYLON.Quaternion (fields x, y, z, w). -/
structure Quat where
  x : ℝ
  y : ℝ
  z : ℝ
  w : ℝ

/-- Sixteen numbers: both a raw 16-element JavaScript array and a BABYLON.Matrix,
whose internal storage `m[0..15]` is row-major (`m[0..3]` is the first row and
`m[12..14]` holds the translation of a Babylon transform). -/
structure Mat16 where
  m0 : ℝ
  m1 : ℝ
  m2 : ℝ
  m3 : ℝ
  m4 : ℝ
  m5 : ℝ
  m6 : ℝ
  m7 : ℝ
  m8 : ℝ
  m9 : ℝ
  m10 : ℝ
  m11 : ℝ
  m12 : ℝ
  m13 : ℝ
  m14 : ℝ
  m15 : ℝ

namespace Babylon

/-- BABYLON.Matrix.FromArray: copies `array[i]` into storage slot `m[i]`. -/
def fromArray (a : Mat16) : Mat16 := a

/-- BABYLON.Matrix.transpose: `result[i*4+j] = m[j*4+i]`; in particular the
transposed matrix's slots 12..14 hold the original slots 3, 7, 11. -/
def transpose (m : Mat16) : Mat16 :=
  ⟨m.m0, m.m4, m.m8, m.m12,
   m.m1, m.m5, m.m9, m.m13,
   m.m2, m.m6, m.m10, m.m14,
   m.m3, m.m7, m.m11, m.m15⟩

/-- BABYLON.Matrix.multiplyToRef: `this.multiplyToRef(other, result)` computes
the row-major product `result = this * other`. -/
def multiply (a b : Mat16) : Mat16 :=
  ⟨a.m0 * b.m0 + a.m1 * b.m4 + a.m2 * b.m8 + a.m3 * b.m12,
   a.m0 * b.m1 + a.m1 * b.m5 + a.m2 * b.m9 + a.m3 * b.m13,
   a.m0 * b.m2 + a.m1 * b.m6 + a.m2 * b.m10 + a.m3 * b.m14,
   a.m0 * b.m3 + a.m1 * b.m7 + a.m2 * b.m11 + a.m3 * b.m15,
   a.m4 * b.m0 + a.m5 * b.m4 + a.m6 * b.m8 + a.m7 * b.m12,
   a.m4 * b.m1 + a.m5 * b.m5 + a.m6 * b.m9 + a.m7 * b.m13,
   a.m4 * b.m2 + a.m5 * b.m6 + a.m6 * b.m10 + a.m7 * b.m14,
   a.m4 * b.m3 + a.m5 * b.m7 + a.m6 * b.m11 + a.m7 * b.m15,
   a.m8 * b.m0 + a.m9 * b.m4 + a.m10 * b.m8 + a.m11 * b.m12,
   a.m8 * b.m1 + a.m9 * b.m5 + a.m10 * b.m9 + a.m11 * b.m13,
   a.m8 * b.m2 + a.m9 * b.m6 + a.m10 * b.m10 + a.m11 * b.m14,
   a.m8 * b.m3 + a.m9 * b.m7 + a.m10 * b.m11 + a.m11 * b.m15,
   a.m12 * b.m0 + a.m13 * b.m4 + a.m14 * b.m8 + a.m15 * b.m12,
   a.m12 * b.m1 + a.m13 * b.m5 + a.m14 * b.m9 + a.m15 * b.m13,
   a.m12 * b.m2 + a.m13 * b.m6 + a.m14 * b.m10 + a.m15 * b.m14,
   a.m12 * b.m3 + a.m13 * b.m7 + a.m14 * b.m11 + a.m15 * b.m15⟩

/-- BABYLON.Matrix.RotationY: storage `[c,0,-s,0, 0,1,0,0, s,0,c,0, 0,0,0,1]`. -/
noncomputable def rotationY (angle : ℝ) : Mat16 :=
  ⟨Real.cos angle, 0, -(Real.sin angle), 0,
   0, 1, 0, 0,
   Real.sin angle, 0, Real.cos angle, 0,
   0, 0, 0, 1⟩

/-- BABYLON.Matrix.FromQuaternionToRef (used by Quaternion.toRotationMatrix). -/
def fromQuaternion (q : Quat) : Mat16 :=
  ⟨1 - 2 * (q.y * q.y + q.z * q.z), 2 * (q.x * q.y + q.z * q.w), 2 * (q.z * q.x - q.y * q.w), 0,
   2 * (q.x * q.y - q.z * q.w), 1 - 2 * (q.z * q.z + q.x * q.x), 2 * (q.y * q.z + q.x * q.w), 0,
   2 * (q.z * q.x + q.y * q.w), 2 * (q.y * q.z - q.x * q.w), 1 - 2 * (q.y * q.y + q.x * q.x), 0,
   0, 0, 0, 1⟩

/-- BABYLON.Matrix.determinant: cofactor expansion of the full 4x4 matrix along
the first storage row. -/
def determinant (m : Mat16) : ℝ :=
  m.m0 * (m.m5 * (m.m10 * m.m15 - m.m14 * m.m11)
          - m.m6 * (m.m9 * m.m15 - m.m13 * m.m11)
          + m.m7 * (m.m9 * m.m14 - m.m13 * m.m10))
  - m.m1 * (m.m4 * (m.m10 * m.m15 - m.m14 * m.m11)
          - m.m6 * (m.m8 * m.m15 - m.m12 * m.m11)
          + m.m7 * (m.m8 * m.m14 - m.m12 * m.m10))
  + m.m2 * (m.m4 * (m.m9 * m.m15 - m.m13 * m.m11)
          - m.m5 * (m.m8 * m.m15 - m.m12 * m.m11)
          + m.m7 * (m.m8 * m.m13 - m.m12 * m.m9))
  - m.m3 * (m.m4 * (m.m9 * m.m14 - m.m13 * m.m10)
          - m.m5 * (m.m8 * m.m14 - m.m12 * m.m10)
          + m.m6 * (m.m8 * m.m13 - m.m12 * m.m9))

/-- BABYLON.Quaternion.FromRotationMatrixToRef: the JS locals are
`m11 = data[0]`, `m12 = data[4]`, `m13 = data[8]`, `m21 = data[1]`, `m22 = data[5]`,
`m23 = data[9]`, `m31 = data[2]`, `m32 = data[6]`, `m33 = data[10]`. -/
noncomputable def quaternionFromRotationMatrix (m : Mat16) : Quat :=
  if 0 < m.m0 + m.m5 + m.m10 then
    ⟨(m.m6 - m.m9) * (0.5 / Real.sqrt (m.m0 + m.m5 + m.m10 + 1)),
     (m.m8 - m.m2) * (0.5 / Real.sqrt (m.m0 + m.m5 + m.m10 + 1)),
     (m.m1 - m.m4) * (0.5 / Real.sqrt (m.m0 + m.m5 + m.m10 + 1)),
     0.25 / (0.5 / Real.sqrt (m.m0 + m.m5 + m.m10 + 1))⟩
  else if m.m5 < m.m0 ∧ m.m10 < m.m0 then
    ⟨0.25 * (2 * Real.sqrt (1 + m.m0 - m.m5 - m.m10)),
     (m.m4 + m.m1) / (2 * Real.sqrt (1 + m.m0 - m.m5 - m.m10)),
     (m.m8 + m.m2) / (2 * Real.sqrt (1 + m.m0 - m.m5 - m.m10)),
     (m.m6 - m.m9) / (2 * Real.sqrt (1 + m.m0 - m.m5 - m.m10))⟩
  else if m.m10 < m.m5 then
    ⟨(m.m4 + m.m1) / (2 * Real.sqrt (1 + m.m5 - m.m0 - m.m10)),
     0.25 * (2 * Real.sqrt (1 + m.m5 - m.m0 - m.m10)),
     (m.m9 + m.m6) / (2 * Real.sqrt (1 + m.m5 - m.m0 - m.m10)),
     (m.m8 - m.m2) / (2 * Real.sqrt (1 + m.m5 - m.m0 - m.m10))⟩
  else
    ⟨(m.m8 + m.m2) / (2 * Real.sqrt (1 + m.m10 - m.m0 - m.m5)),
     (m.m9 + m.m6) / (2 * Real.sqrt (1 + m.m10 - m.m0 - m.m5)),
     0.25 * (2 * Real.sqrt (1 + m.m10 - m.m0 - m.m5)),
     (m.m1 - m.m4) / (2 * Real.sqrt (1 + m.m10 - m.m0 - m.m5))⟩

/-- Scale x extracted by BABYLON.Matrix.decompose: the norm of storage row 0. -/
noncomputable def scaleX (m : Mat16) : ℝ :=
  Real.sqrt (m.m0 * m.m0 + m.m1 * m.m1 + m.m2 * m.m2)

/-- Scale y before the determinant sign flip in BABYLON.Matrix.decompose. -/
noncomputable def scaleYUnsigned (m : Mat16) : ℝ :=
  Real.sqrt (m.m4 * m.m4 + m.m5 * m.m5 + m.m6 * m.m6)

/-- Scale z extracted by BABYLON.Matrix.decompose: the norm of storage row 2. -/
noncomputable def scaleZ (m : Mat16) : ℝ :=
  Real.sqrt (m.m8 * m.m8 + m.m9 * m.m9 + m.m10 * m.m10)

/-- Scale y extracted by BABYLON.Matrix.decompose: negated when the determinant
is not positive. -/
noncomputable def scaleY (m : Mat16) : ℝ :=
  if determinant m ≤ 0 then -(scaleYUnsigned m) else scaleYUnsigned m

/-- The scale-normalized rotation matrix built inside BABYLON.Matrix.decompose
before the quaternion is extracted. -/
noncomputable def normalizedRotationMatrix (m : Mat16) : Mat16 :=
  ⟨m.m0 * (1 / scaleX m), m.m1 * (1 / scaleX m), m.m2 * (1 / scaleX m), 0,
   m.m4 * (1 / scaleY m), m.m5 * (1 / scaleY m), m.m6 * (1 / scaleY m), 0,
   m.m8 * (1 / scaleZ m), m.m9 * (1 / scaleZ m), m.m10 * (1 / scaleZ m), 0,
   0, 0, 0, 1⟩

/-- The result triple of BABYLON.Matrix.decompose. -/
structure Decomposition where
  scale : Vec3
  rotation : Quat
  translation : Vec3

/-- BABYLON.Matrix.decompose(scale, rotationQuat, position): the translation is
copied from storage slots 12..14 unconditionally; the rotation falls back to the
identity quaternion when some extracted scale is zero. -/
noncomputable def decompose (m : Mat16) : Decomposition :=
  { scale := ⟨scaleX m, scaleY m, scaleZ m⟩
    rotation :=
      if scaleX m = 0 ∨ scaleY m = 0 ∨ scaleZ m = 0 then ⟨0, 0, 0, 1⟩
      else quaternionFromRotationMatrix (normalizedRotationMatrix m)
    translation := ⟨m.m12, m.m13, m.m14⟩ }

/-- JavaScript Math.atan2 (for arguments that are not signed zeros). -/
noncomputable def atan2 (y x : ℝ) : ℝ :=
  if 0 < x then Real.arctan (y / x)
  else if x < 0 then
    (if 0 ≤ y then Real.arctan (y / x) + Real.pi else Real.arctan (y / x) - Real.pi)
  else if 0 < y then Real.pi / 2
  else if y < 0 then -(Real.pi / 2)
  else 0

/-- BABYLON.Quaternion.toEulerAnglesToRef with its 0.4999999 gimbal-lock limit. -/
noncomputable def toEulerAngles (q : Quat) : Vec3 :=
  if q.y * q.z - q.x * q.w < -(0.4999999 : ℝ) then
    ⟨Real.pi / 2, 2 * atan2 q.y q.w, 0⟩
  else if (0.4999999 : ℝ) < q.y * q.z - q.x * q.w then
    ⟨-(Real.pi / 2), 2 * atan2 q.y q.w, 0⟩
  else
    ⟨Real.arcsin (-2 * (q.y * q.z - q.x * q.w)),
     atan2 (2 * (q.z * q.x + q.y * q.w)) (q.z * q.z - q.x * q.x - q.y * q.y + q.w * q.w),
     atan2 (2 * (q.x * q.y + q.z * q.w)) (-(q.z * q.z) - q.x * q.x + q.y * q.y + q.w * q.w)⟩

/-- BABYLON.Vector3.TransformCoordinates of a vector by a matrix, including the
perspective division by the fourth coordinate. -/
noncomputable def transformCoordinates (v : Vec3) (m : Mat16) : Vec3 :=
  ⟨(v.x * m.m0 + v.y * m.m4 + v.z * m.m8 + m.m12)
     * (1 / (v.x * m.m3 + v.y * m.m7 + v.z * m.m11 + m.m15)),
   (v.x * m.m1 + v.y * m.m5 + v.z * m.m9 + m.m13)
     * (1 / (v.x * m.m3 + v.y * m.m7 + v.z * m.m11 + m.m15)),
   (v.x * m.m2 + v.y * m.m6 + v.z * m.m10 + m.m14)
     * (1 / (v.x * m.m3 + v.y * m.m7 + v.z * m.m11 + m.m15))⟩

end Babylon

/-- Output of camera.js applyTransformation: the camera position and Euler
rotation it assigns. -/
structure CameraTransform where
  position : Vec3
  rotation : Vec3

/-- camera.js line 64: `BABYLON.Matrix.FromArray(matrix).transpose()`. -/
def cameraBabylonMatrix (a : Mat16) : Mat16 :=
  Babylon.transpose (Babylon.fromArray a)

/-- camera.js lines 67-71: the decomposition of the transposed matrix. -/
noncomputable def cameraDecomposition (a : Mat16) : Babylon.Decomposition :=
  Babylon.decompose (cameraBabylonMatrix a)

/-- camera.js line 71: the `position` output of the decomposition, before the
X negation of line 74. -/
noncomputable def cameraDecodedPosition (a : Mat16) : Vec3 :=
  (cameraDecomposition a).translation

/-- camera.js lines 77-85: `RotationY(pi)` multiplied with the rotation matrix of
the decomposed quaternion. -/
noncomputable def cameraFinalRotMatrix (a : Mat16) : Mat16 :=
  Babylon.multiply (Babylon.rotationY Real.pi)
    (Babylon.fromQuaternion (cameraDecomposition a).rotation)

/-- camera.js lines 88-90: Euler angles of the combined rotation matrix. -/
noncomputable def cameraEuler (a : Mat16) : Vec3 :=
  Babylon.toEulerAngles (Babylon.quaternionFromRotationMatrix (cameraFinalRotMatrix a))

/-- camera.js applyTransformation (lines 62-94): assigns
`camera.position = (-p.x, p.y, p.z)` and `camera.rotation = (e.x, -e.y, e.z)`. -/
noncomputable def applyTransformation (a : Mat16) : CameraTransform :=
  ⟨⟨-((cameraDecodedPosition a).x), (cameraDecodedPosition a).y, (cameraDecodedPosition a).z⟩,
   ⟨(cameraEuler a).x, -((cameraEuler a).y), (cameraEuler a).z⟩⟩

/-- light.js getPositionFromMatrix (lines 172-184): transpose, decompose, return
the position. -/
noncomputable def getPositionFromMatrix (a : Mat16) : Vec3 :=
  (Babylon.decompose (Babylon.transpose (Babylon.fromArray a))).translation

/-- light.js getPositionAndDirectionFromMatrix (lines 191-211): additionally
transforms the forward vector (0,0,-1) by the rotation matrix. -/
noncomputable def getPositionAndDirectionFromMatrix (a : Mat16) : Vec3 × Vec3 :=
  ((Babylon.decompose (Babylon.transpose (Babylon.fromArray a))).translation,
   Babylon.transformCoordinates ⟨0, 0, -1⟩
     (Babylon.fromQuaternion
       ((Babylon.decompose (Babylon.transpose (Babylon.fromArray a))).rotation)))

/-- The 16-element identity matrix (identical in column-major and row-major
reading). -/
def identityArray : Mat16 :=
  ⟨1, 0, 0, 0, 0, 1, 0, 0, 0, 0, 1, 0, 0, 0, 0, 1⟩

/-- The matrix RotationY(pi) evaluates to: `diag(-1, 1, -1, 1)`. -/
def yFlipMat : Mat16 :=
  ⟨-1, 0, 0, 0, 0, 1, 0, 0, 0, 0, -1, 0, 0, 0, 0, 1⟩

lemma sqrt_four : Real.sqrt 4 = 2 := by
  rw [show (4 : ℝ) = 2 ^ 2 by norm_num, Real.sqrt_sq (by norm_num : (0 : ℝ) ≤ 2)]

lemma transpose_identityArray : Babylon.transpose (Babylon.fromArray identityArray) = identityArray := rfl

lemma determinant_identityArray : Babylon.determinant identityArray = 1 := by
  norm_num [Babylon.determinant, identityArray]

lemma scaleX_identityArray : Babylon.scaleX identityArray = 1 := by
  norm_num [Babylon.scaleX, identityArray, Real.sqrt_one]

lemma scaleY_identityArray : Babylon.scaleY identityArray = 1 := by
  rw [Babylon.scaleY, determinant_identityArray]
  norm_num [Babylon.scaleYUnsigned, identityArray, Real.sqrt_one]

lemma scaleZ_identityArray : Babylon.scaleZ identityArray = 1 := by
  norm_num [Babylon.scaleZ, identityArray, Real.sqrt_one]

lemma normalized_identityArray :
    Babylon.normalizedRotationMatrix identityArray = identityArray := by
  rw [Babylon.normalizedRotationMatrix, scaleX_identityArray, scaleY_identityArray,
    scaleZ_identityArray]
  norm_num [identityArray]

lemma quatFromRot_identityArray :
    Babylon.quaternionFromRotationMatrix identityArray = ⟨0, 0, 0, 1⟩ := by
  rw [Babylon.quaternionFromRotationMatrix]
  norm_num [identityArray, show (1 : ℝ) + 1 + 1 + 1 = 4 by norm_num, sqrt_four]

lemma decompose_identityArray :
    Babylon.decompose identityArray = ⟨⟨1, 1, 1⟩, ⟨0, 0, 0, 1⟩, ⟨0, 0, 0⟩⟩ := by
  rw [Babylon.decompose, scaleX_identityArray, scaleY_identityArray, scaleZ_identityArray,
    normalized_identityArray, quatFromRot_identityArray]
  norm_num [identityArray]

lemma fromQuaternion_identityQuat :
    Babylon.fromQuaternion ⟨0, 0, 0, 1⟩ = identityArray := by
  norm_num [Babylon.fromQuaternion, identityArray]

lemma rotationY_pi : Babylon.rotationY Real.pi = yFlipMat := by
  norm_num [Babylon.rotationY, yFlipMat, Real.cos_pi, Real.sin_pi]

lemma multiply_yFlip_identity : Babylon.multiply yFlipMat identityArray = yFlipMat := by
  norm_num [Babylon.multiply, yFlipMat, identityArray]

lemma quatFromRot_yFlipMat :
    Babylon.quaternionFromRotationMatrix yFlipMat = ⟨0, 1, 0, 0⟩ := by
  rw [Babylon.quaternionFromRotationMatrix]
  norm_num [yFlipMat, show (1 : ℝ) + 1 - -1 - -1 = 4 by norm_num, sqrt_four]

lemma atan2_zero_one : Babylon.atan2 0 1 = 0 := by
  norm_num [Babylon.atan2, Real.arctan_zero]

lemma atan2_zero_neg_one : Babylon.atan2 0 (-1) = Real.pi := by
  norm_num [Babylon.atan2, Real.arctan_zero]

lemma toEulerAngles_yFlipQuat :
    Babylon.toEulerAngles ⟨0, 1, 0, 0⟩ = ⟨0, Real.pi, 0⟩ := by
  rw [Babylon.toEulerAngles]
  norm_num [Real.arcsin_zero, atan2_zero_one, atan2_zero_neg_one]

/-- Full evaluation of applyTransformation at the identity input matrix. -/
lemma applyTransformation_identityArray :
    applyTransformation identityArray = ⟨⟨0, 0, 0⟩, ⟨0, -Real.pi, 0⟩⟩ := by
  have hdec : cameraDecomposition identityArray = ⟨⟨1, 1, 1⟩, ⟨0, 0, 0, 1⟩, ⟨0, 0, 0⟩⟩ := by
    rw [cameraDecomposition, cameraBabylonMatrix, transpose_identityArray,
      decompose_identityArray]
  have hrot : cameraFinalRotMatrix identityArray = yFlipMat := by
    rw [cameraFinalRotMatrix, hdec, rotationY_pi]
    exact (congrArg (Babylon.multiply yFlipMat) fromQuaternion_identityQuat).trans
      multiply_yFlip_identity
  have heuler : cameraEuler identityArray = ⟨0, Real.pi, 0⟩ := by
    rw [cameraEuler, hrot, quatFromRot_yFlipMat, toEulerAngles_yFlipQuat]
  rw [applyTransformation, cameraDecodedPosition, hdec, heuler]
  norm_num

/-- C1 counterexample: for the identity 16-element matrix, applyTransformation's
camera rotation is not the zero Euler angles (its Y component is `-pi`, coming
from the 180-degree yaw handedness flip the code always applies). -/
theorem applyTransformation_identity_rotation_nonzero :
    (applyTransformation identityArray).rotation ≠ ⟨0, 0, 0⟩ := by
  rw [applyTransformation_identityArray]
  intro h
  have hy : -Real.pi = (0 : ℝ) := congrArg Vec3.y h
  exact Real.pi_ne_zero (neg_eq_zero.mp hy)

/-- C1 amended: for the identity 16-element matrix, applyTransformation produces
camera position (0,0,0) and camera rotation (0, -pi, 0): the position is the zero
vector, but the applied rotation is the negated 180-degree yaw of the
handedness conversion, not zero Euler angles. -/
theorem applyTransformation_identity_position_rotation :
    (applyTransformation identityArray).position = ⟨0, 0, 0⟩ ∧
    (applyTransformation identityArray).rotation = ⟨0, -Real.pi, 0⟩ := by
  rw [applyTransformation_identityArray]
  exact ⟨rfl, rfl⟩

/-- Spec-side reading of section 4.1 of the design document: re-store the
column-major array in row-major order (slot `[i][j]` receives array element
`j*4+i`). -/
def colMajorToRowMajor (a : Mat16) : Mat16 :=
  ⟨a.m0, a.m4, a.m8, a.m12,
   a.m1, a.m5, a.m9, a.m13,
   a.m2, a.m6, a.m10, a.m14,
   a.m3, a.m7, a.m11, a.m15⟩

/-- Spec-side transform decoder, following the specification's words: interpret
the array as column-major and re-store row-major, decompose into
scale/rotation-quaternion/translation, negate the X position component,
left-multiply the rotation by a 180-degree rotation about the up (Y) axis,
convert the resulting quaternion back to Euler angles, and negate the Y Euler
component in the applied rotation. -/
noncomputable def specTransformDecode (a : Mat16) : CameraTransform :=
  let rowMajor := colMajorToRowMajor a
  let d := Babylon.decompose rowMajor
  let flipped := Babylon.multiply (Babylon.rotationY Real.pi)
    (Babylon.fromQuaternion d.rotation)
  let euler := Babylon.toEulerAngles (Babylon.quaternionFromRotationMatrix flipped)
  ⟨⟨-(d.translation.x), d.translation.y, d.translation.z⟩,
   ⟨euler.x, -(euler.y), euler.z⟩⟩

/-- C2: for every 16-element input array, applyTransformation follows exactly the
steps the specification describes: column-major reinterpretation to row-major
storage, decomposition, X-position negation, left multiplication of the rotation
by RotationY(pi), conversion back to Euler angles, and Y-Euler negation. -/
theorem applyTransformation_eq_spec_steps (a : Mat16) :
    applyTransformation a = specTransformDecode a := rfl

/-- C3 failing input: identity rotation with X translation 5 stored column-major,
so the array's translation column is elements 12..14 and element 12 holds the X
translation. -/
def c3InputArray : Mat16 :=
  ⟨1, 0, 0, 0, 0, 1, 0, 0, 0, 0, 1, 0, 5, 0, 0, 1⟩

/-- C3 failing input with the X-translation entry (element 12) negated. -/
def c3NegatedArray : Mat16 :=
  ⟨1, 0, 0, 0, 0, 1, 0, 0, 0, 0, 1, 0, -5, 0, 0, 1⟩

/-- C3: negating the X-translation entry (element 12) of the column-major array
does NOT negate the decoded position's X. Because both decoders transpose the
matrix before decomposing, the decoded position is read from array elements
3, 7, 11 (the matrix's bottom row), so it is (0,0,0) for both inputs, in the
camera decoder and in the light-position decoder alike — while the repository's
own createDefaultProject stores camera translation (0, 2, -10) at elements
12..14, expecting those elements to be decoded. -/
theorem xTranslation_negation_ignored_by_decoders :
    getPositionFromMatrix c3InputArray = ⟨0, 0, 0⟩ ∧
    getPositionFromMatrix c3NegatedArray = ⟨0, 0, 0⟩ ∧
    (applyTransformation c3InputArray).position = ⟨0, 0, 0⟩ ∧
    (applyTransformation c3NegatedArray).position = ⟨0, 0, 0⟩ := by
  refine ⟨rfl, rfl, ?_, ?_⟩ <;>
    · show Vec3.mk (-(0 : ℝ)) 0 0 = ⟨0, 0, 0⟩
      norm_num

/-- A light configuration record from the manifest (light.js `lightData`).
Absent JSON fields are `none`. -/
structure LightData where
  name : Option String
  type : String
  color : Option (ℝ × ℝ × ℝ)
  intensity : Option ℝ
  range : Option ℝ
  angle : Option ℝ
  exponent : Option ℝ
  castShadows : Bool
  matrix : Option Mat16

/-- The kind of Babylon light a factory constructs. -/
inductive LightKind where
  | point
  | spot
  | directional
  | hemispheric
deriving DecidableEq

/-- The observable state of a constructed light: which properties light.js set,
and to what. A `none` field was left at its engine default. -/
structure Light where
  kind : LightKind
  name : String
  position : Option Vec3
  direction : Option Vec3
  diffuse : Option (ℝ × ℝ × ℝ)
  specular : Option (ℝ × ℝ × ℝ)
  intensity : Option ℝ
  range : Option ℝ
  angle : Option ℝ
  exponent : Option ℝ
  shadowGenerator : Bool

/-- JavaScript truthiness applied to an optional number used in
`if (lightData.range) { ... }`: present-and-zero counts as absent. -/
noncomputable def jsTruthy (o : Option ℝ) : Option ℝ :=
  match o with
  | some v => if v = 0 then none else some v
  | none => none

/-- JavaScript `value || dflt` on an optional number: zero falls back to the
default. -/
noncomputable def jsOrDefault (o : Option ℝ) (dflt : ℝ) : ℝ :=
  match o with
  | some v => if v = 0 then dflt else v
  | none => dflt

/-- light.js createPointLight (lines 47-77): position from the matrix (with X
negation) when present, then color, intensity and (truthy) range. -/
noncomputable def createPointLight (d : LightData) : Light :=
  { kind := LightKind.point
    name := (d.name).getD ("pointLight")
    position :=
      match d.matrix with
      | some a => some ⟨-((getPositionFromMatrix a).x), (getPositionFromMatrix a).y,
          (getPositionFromMatrix a).z⟩
      | none => some ⟨0, 0, 0⟩
    direction := none
    diffuse := d.color
    specular := d.color
    intensity := d.intensity
    range := jsTruthy d.range
    angle := none
    exponent := none
    shadowGenerator := false }

/-- light.js createSpotLight (lines 85-114): angle and exponent are constructor
arguments with `||` defaults; position and direction come from the matrix (with
X negation) when present. -/
noncomputable def createSpotLight (d : LightData) : Light :=
  { kind := LightKind.spot
    name := (d.name).getD ("spotLight")
    position :=
      match d.matrix with
      | some a => some ⟨-((getPositionAndDirectionFromMatrix a).1.x),
          (getPositionAndDirectionFromMatrix a).1.y, (getPositionAndDirectionFromMatrix a).1.z⟩
      | none => some ⟨0, 0, 0⟩
    direction :=
      match d.matrix with
      | some a => some ⟨-((getPositionAndDirectionFromMatrix a).2.x),
          (getPositionAndDirectionFromMatrix a).2.y, (getPositionAndDirectionFromMatrix a).2.z⟩
      | none => some ⟨0, 0, -1⟩
    diffuse := d.color
    specular := d.color
    intensity := d.intensity
    range := none
    angle := some (jsOrDefault d.angle (Real.pi / 4))
    exponent := some (jsOrDefault d.exponent 2)
    shadowGenerator := false }

/-- light.js createDirectionalLight (lines 122-165): direction defaults to
(0,-1,0); a shadow generator is created exactly when `castShadows` is set. -/
noncomputable def createDirectionalLight (d : LightData) : Light :=
  { kind := LightKind.directional
    name := (d.name).getD ("directionalLight")
    position :=
      match d.matrix with
      | some a => some ⟨-((getPositionAndDirectionFromMatrix a).1.x),
          (getPositionAndDirectionFromMatrix a).1.y, (getPositionAndDirectionFromMatrix a).1.z⟩
      | none => none
    direction :=
      match d.matrix with
      | some a => some ⟨-((getPositionAndDirectionFromMatrix a).2.x),
          (getPositionAndDirectionFromMatrix a).2.y, (getPositionAndDirectionFromMatrix a).2.z⟩
      | none => some ⟨0, -1, 0⟩
    diffuse := d.color
    specular := d.color
    intensity := d.intensity
    range := none
    angle := none
    exponent := none
    shadowGenerator := d.castShadows }

/-- light.js setupLights default branch (lines 28-35): a hemispheric light with
direction (0,1,0); none of the record's color/intensity/range properties are
applied to it. -/
def defaultHemisphericLight (d : LightData) : Light :=
  { kind := LightKind.hemispheric
    name := (d.name).getD ("defaultLight")
    position := none
    direction := some ⟨0, 1, 0⟩
    diffuse := none
    specular := none
    intensity := none
    range := none
    angle := none
    exponent := none
    shadowGenerator := false }

/-- light.js setupLights (lines 11-39): the switch on `lightData.type`, with SUN
and DIRECTIONAL sharing the directional branch and everything else falling to the
default hemispheric light. -/
noncomputable def setupLights (d : LightData) : Light :=
  if d.type = "POINT" then createPointLight d
  else if d.type = "SPOT" then createSpotLight d
  else if d.type = "SUN" ∨ d.type = "DIRECTIONAL" then createDirectionalLight d
  else defaultHemisphericLight d

/-- Spec-side dispatch table for the light type tag. -/
def specLightKind (t : String) : LightKind :=
  if t = "POINT" then LightKind.point
  else if t = "SPOT" then LightKind.spot
  else if t = "SUN" ∨ t = "DIRECTIONAL" then LightKind.directional
  else LightKind.hemispheric

/-- C7 counterexample input: an unknown light type whose record carries a color
and an intensity. -/
def c7BogusRecord : LightData :=
  { name := some ("L"), type := "AREA", color := some (1, 0, 0), intensity := some 5,
    range := none, angle := none, exponent := none, castShadows := false, matrix := none }

/-- C7 counterexample: a record of unknown type carrying a color and an
intensity constructs the default hemispheric light, which does NOT have the
record's color or intensity applied — contradicting the claim that each
constructed light has color and intensity applied from the record when present. -/
theorem setupLights_default_ignores_color_intensity :
    (setupLights c7BogusRecord).kind = LightKind.hemispheric ∧
    c7BogusRecord.color = some (1, 0, 0) ∧
    c7BogusRecord.intensity = some 5 ∧
    (setupLights c7BogusRecord).diffuse = none ∧
    (setupLights c7BogusRecord).intensity = none := by
  refine ⟨?_, rfl, rfl, ?_, ?_⟩ <;> rfl

/-- C7 amended: setupLights dispatches on the type string (POINT to a point
light, SPOT to a spot light, SUN and DIRECTIONAL both to a directional light,
anything else to the default hemispheric light). The point, spot and directional
lights have color and intensity applied from the record when present; the point
light applies a nonzero range; the spot light takes its angle from the record
(nonzero, else pi/4); the default hemispheric light applies none of the record's
properties; and a shadow generator is created exactly when a directional light's
record has castShadows set. -/
theorem setupLights_dispatch_properties (d : LightData) :
    (setupLights d).kind = specLightKind d.type
    ∧ ((setupLights d).kind ≠ LightKind.hemispheric →
        (setupLights d).diffuse = d.color ∧ (setupLights d).specular = d.color ∧
        (setupLights d).intensity = d.intensity)
    ∧ ((setupLights d).kind = LightKind.point → (setupLights d).range = jsTruthy d.range)
    ∧ ((setupLights d).kind = LightKind.spot →
        (setupLights d).angle = some (jsOrDefault d.angle (Real.pi / 4)))
    ∧ ((setupLights d).kind = LightKind.hemispheric →
        (setupLights d).diffuse = none ∧ (setupLights d).intensity = none)
    ∧ ((setupLights d).shadowGenerator = true ↔
        ((setupLights d).kind = LightKind.directional ∧ d.castShadows = true)) := by
  by_cases hp : d.type = "POINT"
  · simp [setupLights, specLightKind, hp, createPointLight]
  by_cases hs : d.type = "SPOT"
  · simp [setupLights, specLightKind, hp, hs, createSpotLight]
  by_cases hd : d.type = "SUN" ∨ d.type = "DIRECTIONAL"
  · simp [setupLights, specLightKind, hp, hs, hd, createDirectionalLight]
  · simp [setupLights, specLightKind, hp, hs, hd, defaultHemisphericLight]

/-- C7 witness record: a POINT light with color, intensity and range present. -/
def c7PointRecord : LightData :=
  { name := none, type := "POINT", color := some (1, 1, 1), intensity := some 2,
    range := some 3, angle := none, exponent := none, castShadows := false, matrix := none }

/-- C7 witness: instantiating the dispatch theorem at a concrete POINT record. -/
theorem setupLights_dispatch_properties_witness :
    (setupLights c7PointRecord).diffuse = some (1, 1, 1) ∧
    (setupLights c7PointRecord).intensity = some 2 ∧
    (setupLights c7PointRecord).range = some 3 := by
  have h := setupLights_dispatch_properties c7PointRecord
  have hk : (setupLights c7PointRecord).kind = LightKind.point := by
    rw [h.1]; rfl
  have happ := h.2.1 (by rw [hk]; exact fun hcon => LightKind.noConfusion hcon)
  refine ⟨happ.1.trans rfl, happ.2.2.trans rfl, (h.2.2.1 hk).trans ?_⟩
  show jsTruthy (some 3) = some 3
  norm_num [jsTruthy]

/-- A LightData record of type POINT whose matrix is the given array and whose
other optional fields are absent. -/
def pointLightRecord (a : Mat16) : LightData :=
  { name := none, type := "POINT", color := none, intensity := none,
    range := none, angle := none, exponent := none, castShadows := false, matrix := some a }

/-- C9: the transform-decoding logic duplicated between camera and light handling
agrees where it overlaps. For every 16-element matrix, the camera decoder's
position before its X negation equals the position produced by both light-side
decoders, and a point light given the same matrix ends up at the same final
(X-negated) position as the camera. -/
theorem transform_decoders_agree (a : Mat16) :
    cameraDecodedPosition a = getPositionFromMatrix a
    ∧ getPositionFromMatrix a = (getPositionAndDirectionFromMatrix a).1
    ∧ (setupLights (pointLightRecord a)).position = some ((applyTransformation a).position) := by
  exact ⟨rfl, rfl, rfl⟩

/-- A camera configuration record from the manifest (camera.js `cameraData`).
Absent JSON fields are `none`. -/
structure CameraData where
  name : Option String
  matrix : Option Mat16
  checkCollisions : Option Bool
  applyGravity : Option Bool

/-- The observable state of the camera constructed by camera.js setupCamera. -/
structure CameraState where
  name : String
  position : Vec3
  rotation : Vec3
  speed : ℝ
  inertia : ℝ
  angularSensibility : ℝ
  checkCollisions : Bool
  applyGravity : Bool
  ellipsoid : Vec3

/-- camera.js setupCamera (lines 11-55): builds a UniversalCamera at the origin,
applies the matrix transformation when `cameraData.matrix` is present and the
fixed default position (0, 2, -10) with zero rotation otherwise, then sets the
movement properties and collision flags. -/
noncomputable def setupCamera (d : CameraData) : CameraState :=
  { name := (d.name).getD ("MainCamera")
    position :=
      match d.matrix with
      | some a => (applyTransformation a).position
      | none => ⟨0, 2, -10⟩
    rotation :=
      match d.matrix with
      | some a => (applyTransformation a).rotation
      | none => ⟨0, 0, 0⟩
    speed := 2
    inertia := 0.7
    angularSensibility := 2000
    checkCollisions := (d.checkCollisions).getD false
    applyGravity := (d.applyGravity).getD false
    ellipsoid := ⟨1, 1, 1⟩ }

/-- C10: for every camera record without a matrix field, setupCamera places the
camera at the fixed default position (0, 2, -10) with zero rotation; and the
matrix-decoding path is taken exactly when the record has a matrix, in which
case position and rotation are the applyTransformation outputs. setupCamera is a
total function of the record, so it never throws. -/
theorem setupCamera_default_and_matrix_dispatch (d : CameraData) :
    (d.matrix = none →
      (setupCamera d).position = ⟨0, 2, -10⟩ ∧ (setupCamera d).rotation = ⟨0, 0, 0⟩)
    ∧ (∀ a, d.matrix = some a →
      (setupCamera d).position = (applyTransformation a).position ∧
      (setupCamera d).rotation = (applyTransformation a).rotation) := by
  constructor
  · intro h
    simp [setupCamera, h]
  · intro a h
    simp [setupCamera, h]

/-- C10 witness record: a camera record with no matrix field. -/
def c10CameraRecord : CameraData :=
  { name := none, matrix := none, checkCollisions := none, applyGravity := none }

/-- C10 witness: the default-position branch at a concrete matrixless record. -/
theorem setupCamera_default_witness :
    (setupCamera c10CameraRecord).position = ⟨0, 2, -10⟩ ∧
    (setupCamera c10CameraRecord).rotation = ⟨0, 0, 0⟩ :=
  (setupCamera_default_and_matrix_dispatch c10CameraRecord).1 rfl

/-- An asset descriptor from the manifest: `{type, name, url}`
(assetManager.js). -/
structure Asset where
  type : String
  name : String
  url : String

/-- The kind of Babylon asset task a loader registers. -/
inductive AssetTaskKind where
  | mesh
  | texture
  | binaryFile
  | cubeTexture
deriving DecidableEq

/-- The observable state of the wrapped BABYLON.AssetsManager: the registered
tasks and the warnings logged for unsupported types. -/
structure AssetManagerState where
  tasks : List (AssetTaskKind × String)
  warnings : List String
deriving DecidableEq

/-- assetManager.js AssetManager.addAssetTask (lines 58-80): the switch on
`asset.type`; `model`/`texture`/`audio`/`hdr` register one task each, anything
else logs one warning and registers nothing, throwing no exception. -/
def addAssetTask (s : AssetManagerState) (a : Asset) : AssetManagerState :=
  if a.type = "model" then { s with tasks := s.tasks ++ [(AssetTaskKind.mesh, a.name)] }
  else if a.type = "texture" then { s with tasks := s.tasks ++ [(AssetTaskKind.texture, a.name)] }
  else if a.type = "audio" then { s with tasks := s.tasks ++ [(AssetTaskKind.binaryFile, a.name)] }
  else if a.type = "hdr" then { s with tasks := s.tasks ++ [(AssetTaskKind.cubeTexture, a.name)] }
  else { s with warnings := s.warnings ++ ["Unsupported asset type: " ++ a.type] }

/-- assetManager.js AssetManager.loadAssets (lines 36-52): resets the manager
(clearing previous tasks) and processes each asset of the list in order. -/
def loadAssetsTasks (assetList : List Asset) : AssetManagerState :=
  assetList.foldl addAssetTask { tasks := [], warnings := [] }

/-- C5 input: one model, one texture and one bogus asset. -/
def c5AssetList : List Asset :=
  [{ type := "model", name := "m0", url := "assets/m0.glb" },
   { type := "texture", name := "t0", url := "assets/t0.png" },
   { type := "bogus", name := "b0", url := "assets/b0.bin" }]

/-- C5: for an asset list with one `model`, one `texture` and one `bogus` entry,
loadAssets registers exactly two tasks (the mesh task and the texture task, in
order) and logs exactly one warning for the unknown type; the dispatch is total,
so no exception is thrown and the unknown entry is skipped non-fatally. -/
theorem loadAssets_model_texture_bogus :
    (loadAssetsTasks c5AssetList).tasks = [(AssetTaskKind.mesh, "m0"), (AssetTaskKind.texture, "t0")]
    ∧ (loadAssetsTasks c5AssetList).warnings = ["Unsupported asset type: bogus"] := by
  constructor <;> rfl

/-- One updateLoadingProgress call: the percentage and the status message. -/
abbrev Emission := ℕ × String

/-- The percentages the asset-loading batch reports, modelling the engine's
AssetsManager.onProgress firing once per completed task (k = 1..n with
`(totalCount - remainingCount) / totalCount = k / n`) composed with scene.js
line 138: `50 + Math.floor(progress * 20)`. The JavaScript floor of the
floating-point quotient agrees with natural floor division here. -/
def assetProgressPercents (n : ℕ) : List ℕ :=
  (List.range n).map (fun k => 50 + 20 * (k + 1) / n)

/-- scene.js Scene.initialize (lines 24-50) progress reports of a successful run
with `n` assets: 40 (camera), 50 (assets), the per-task asset percentages, 70
(lights), 80 (interactions). -/
def sceneEmissions (n : ℕ) : List Emission :=
  [(40, "Setting up camera..."), (50, "Loading assets...")]
    ++ (assetProgressPercents n).map (fun p => (p, "Loading assets..."))
    ++ [(70, "Setting up lights..."), (80, "Setting up interactions...")]

/-- app.js SimpleBEXApp.initialize (lines 26-79) progress reports of a fully
successful run with `n` assets: 10, 20, 30, the scene reports, 90, and finally
100 ("Ready!"). -/
def appInitEmissions (n : ℕ) : List Emission :=
  [(10, "Loading project configuration..."), (20, "Creating engine..."),
   (30, "Creating scene...")]
    ++ sceneEmissions n
    ++ [(90, "Starting render loop..."), (100, "Ready!")]

/-- The loading-progress percentage values emitted by a full successful
orchestration run with `n` assets, in order. -/
def appInitPercents (n : ℕ) : List ℕ :=
  (appInitEmissions n).map Prod.fst

lemma appInitPercents_eq (n : ℕ) :
    appInitPercents n =
      [10, 20, 30, 40, 50] ++ assetProgressPercents n ++ [70, 80, 90, 100] := by
  simp only [appInitPercents, appInitEmissions, sceneEmissions, List.map_append,
    List.map_map, List.map_cons, List.map_nil]
  simp [Function.comp_def, List.append_assoc]

/-- C4 counterexample: with exactly one asset, the full run emits
[10, 20, 30, 40, 50, 70, 70, 80, 90, 100] — the last asset callback emits 70 and
the lights phase emits 70 again, so the percentages are NOT strictly
increasing. -/
theorem appInitPercents_one_not_strictly_increasing :
    appInitPercents 1 = [10, 20, 30, 40, 50, 70, 70, 80, 90, 100]
    ∧ ¬ List.Chain' (· < ·) (appInitPercents 1) := by
  constructor
  · rfl
  · intro h
    rw [show appInitPercents 1 = [10, 20, 30, 40, 50, 70, 70, 80, 90, 100] from rfl] at h
    simp [List.chain'_cons] at h

/-- C4 amended: a full orchestration run with `n` assets emits loading-progress
percentages in non-decreasing (not strictly increasing) order — consecutive
equal values occur, e.g. 70 for the last asset callback and 70 for the lights
phase — and the final emitted value is 100. -/
theorem appInitPercents_monotone_last_100 (n : ℕ) :
    List.Pairwise (· ≤ ·) (appInitPercents n)
    ∧ (appInitPercents n).getLast? = some 100 := by
  have hmem : ∀ b ∈ assetProgressPercents n, 50 ≤ b ∧ b ≤ 70 := by
    intro b hb
    rw [assetProgressPercents, List.mem_map] at hb
    obtain ⟨k, hk, rfl⟩ := hb
    rw [List.mem_range] at hk
    have hn : 0 < n := by omega
    constructor
    · exact Nat.le_add_right 50 _
    · have h1 : 20 * (k + 1) ≤ 20 * n := Nat.mul_le_mul_left 20 hk
      have h2 : 20 * (k + 1) / n ≤ 20 * n / n := Nat.div_le_div_right h1
      rw [Nat.mul_div_cancel 20 hn] at h2
      omega
  constructor
  · rw [appInitPercents_eq]
    refine List.pairwise_append.2 ⟨List.pairwise_append.2 ⟨?_, ?_, ?_⟩, ?_, ?_⟩
    · decide
    · rw [assetProgressPercents]
      refine List.pairwise_map.2 ((List.pairwise_lt_range n).imp ?_)
      intro a b hab
      exact Nat.add_le_add_left (Nat.div_le_div_right (Nat.mul_le_mul_left 20 (by omega))) 50
    · intro a ha b hb
      have ha50 : a ≤ 50 := by
        have h' : a = 10 ∨ a = 20 ∨ a = 30 ∨ a = 40 ∨ a = 50 := by simpa using ha
        omega
      exact le_trans ha50 (hmem b hb).1
    · decide
    · intro a ha b hb
      have hb70 : 70 ≤ b := by
        have h' : b = 70 ∨ b = 80 ∨ b = 90 ∨ b = 100 := by simpa using hb
        omega
      have ha70 : a ≤ 70 := by
        rcases List.mem_append.1 ha with h | h
        · have h' : a = 10 ∨ a = 20 ∨ a = 30 ∨ a = 40 ∨ a = 50 := by simpa using h
          omega
        · exact (hmem a h).2
      omega
  · rw [appInitPercents_eq,
      show [10, 20, 30, 40, 50] ++ assetProgressPercents n ++ [70, 80, 90, 100] =
        (([10, 20, 30, 40, 50] ++ assetProgressPercents n ++ [70, 80, 90]) ++ [100]) by
          simp]
    exact List.getLast?_concat _

/-- A description of a ProjectData record parsed from the manifest; only its
presence matters to the application's null check (app.js line 34). -/
structure ProjectData where
  debug : Bool
  name : Option String

/-- The outcome of the browser `fetch` of the manifest: a response with its
`ok` flag and body text, or a thrown network error. -/
inductive FetchOutcome where
  | response (ok : Bool) (text : String)
  | threw (msg : String)

/-- utility.js loadJSON (lines 254-268), with the fetch outcome and the
JSON.parse function (returning `none` where JSON.parse would throw) passed
explicitly: every failure path is caught and turned into a null return. -/
def loadJSON (parse : String → Option ProjectData) (f : FetchOutcome) :
    Option ProjectData :=
  match f with
  | FetchOutcome.threw _ => none
  | FetchOutcome.response ok text => if ok then parse text else none

/-- The manifest load fails: the response was not ok (e.g. HTTP 404), the fetch
threw, or the body does not parse. -/
def manifestLoadFails (parse : String → Option ProjectData) (f : FetchOutcome) : Prop :=
  match f with
  | FetchOutcome.threw _ => True
  | FetchOutcome.response ok text => ok = false ∨ parse text = none

/-- The try-block of app.js SimpleBEXApp.initialize: the emissions produced so
far, paired with the uncaught exception message if one was thrown. The
`throw new Error('Failed to load project configuration')` of line 35 fires after
the 10% report whenever loadJSON returned null. -/
def appInitTry (parse : String → Option ProjectData) (f : FetchOutcome) (n : ℕ) :
    List Emission × Option String :=
  match loadJSON parse f with
  | none => ([(10, "Loading project configuration...")],
      some "Failed to load project configuration")
  | some _ => (appInitEmissions n, none)

/-- app.js SimpleBEXApp.initialize with its catch-all (lines 75-78): an
exception escaping the try block is caught and displayed as
`updateLoadingProgress(0, 'Error: ...')` instead of crashing. -/
def appInit (parse : String → Option ProjectData) (f : FetchOutcome) (n : ℕ) :
    List Emission :=
  match appInitTry parse f n with
  | (trace, none) => trace
  | (trace, some msg) => trace ++ [(0, "Error: " ++ msg)]

/-- C6: whenever the manifest fetch fails (response not ok, fetch threw, or the
body does not parse), loadJSON returns null rather than throwing, and the
application's initialize catches the resulting initialization exception and ends
by displaying the error message on the loading screen instead of crashing. -/
theorem loadJSON_failure_caught (parse : String → Option ProjectData)
    (f : FetchOutcome) (n : ℕ) (h : manifestLoadFails parse f) :
    loadJSON parse f = none
    ∧ appInit parse f n =
        [(10, "Loading project configuration..."),
         (0, "Error: Failed to load project configuration")] := by
  have hnull : loadJSON parse f = none := by
    match f with
    | FetchOutcome.threw m => rfl
    | FetchOutcome.response ok text =>
      rcases h with h | h
      · simp [loadJSON, h]
      · rcases ok with _ | _
        · simp [loadJSON]
        · simp [loadJSON, h]
  refine ⟨hnull, ?_⟩
  rw [appInit, appInitTry, hnull]
  rfl

/-- C6 witness: a concrete HTTP 404 (response not ok) with a parser that is
never reached. -/
theorem loadJSON_failure_caught_witness :
    manifestLoadFails (fun _ => none) (FetchOutcome.response false ("Not Found"))
    ∧ loadJSON (fun _ => none) (FetchOutcome.response false ("Not Found")) = none
    ∧ appInit (fun _ => none) (FetchOutcome.response false ("Not Found")) 0 =
        [(10, "Loading project configuration..."),
         (0, "Error: Failed to load project configuration")] := by
  refine ⟨Or.inl rfl, ?_⟩
  exact loadJSON_failure_caught (fun _ => none) (FetchOutcome.response false ("Not Found")) 0
    (Or.inl rfl)

/-- The five phases of scene.js Scene.initialize. -/
inductive Phase where
  | environment
  | camera
  | assets
  | lights
  | interaction
deriving DecidableEq

/-- The fixed phase order of scene.js Scene.initialize (lines 24-50). -/
def scenePhaseOrder : List Phase :=
  [Phase.environment, Phase.camera, Phase.assets, Phase.lights, Phase.interaction]

/-- scene.js Scene.initialize (lines 24-50) as straight-line fallible calls:
given each phase's outcome, runs createEnvironment, setupCamera, loadAssets,
setupLights and setupActionManager in that fixed order, stopping at the first
failure; there is no try/catch, so the failure is returned (propagated)
unchanged. The result is the list of phases that were started, paired with the
escaping exception if any. -/
def sceneInitTrace (outcome : Phase → Except String Unit) :
    List Phase × Option String :=
  match outcome Phase.environment with
  | Except.error e => ([Phase.environment], some e)
  | Except.ok _ =>
    match outcome Phase.camera with
    | Except.error e => ([Phase.environment, Phase.camera], some e)
    | Except.ok _ =>
      match outcome Phase.assets with
      | Except.error e => ([Phase.environment, Phase.camera, Phase.assets], some e)
      | Except.ok _ =>
        match outcome Phase.lights with
        | Except.error e =>
          ([Phase.environment, Phase.camera, Phase.assets, Phase.lights], some e)
        | Except.ok _ =>
          match outcome Phase.interaction with
          | Except.error e => (scenePhaseOrder, some e)
          | Except.ok _ => (scenePhaseOrder, none)

/-- C8: Scene.initialize always attempts its phases in the fixed order
environment, camera, assets, lights, interaction: the attempted phases are a
prefix of that order; when every phase succeeds, all five run in order and none
is skipped; the run completes without error exactly when every phase succeeds;
and any escaping error is some phase's own error, propagated uncaught. -/
theorem sceneInit_phase_order (outcome : Phase → Except String Unit) :
    (∃ rest, (sceneInitTrace outcome).1 ++ rest = scenePhaseOrder)
    ∧ ((∀ p, outcome p = Except.ok ()) → sceneInitTrace outcome = (scenePhaseOrder, none))
    ∧ ((sceneInitTrace outcome).2 = none → (sceneInitTrace outcome).1 = scenePhaseOrder)
    ∧ (∀ e, (sceneInitTrace outcome).2 = some e → ∃ p, outcome p = Except.error e) := by
  unfold sceneInitTrace
  rcases h0 : outcome Phase.environment with e0 | u0
  · refine ⟨⟨[Phase.camera, Phase.assets, Phase.lights, Phase.interaction], rfl⟩, ?_, ?_, ?_⟩
    · intro hall; rw [hall Phase.environment] at h0; exact absurd h0 (by simp)
    · intro hc; exact absurd hc (by simp)
    · intro e he; simp at he; exact ⟨Phase.environment, by rw [h0, he]⟩
  rcases h1 : outcome Phase.camera with e1 | u1
  · refine ⟨⟨[Phase.assets, Phase.lights, Phase.interaction], rfl⟩, ?_, ?_, ?_⟩
    · intro hall; rw [hall Phase.camera] at h1; exact absurd h1 (by simp)
    · intro hc; exact absurd hc (by simp)
    · intro e he; simp at he; exact ⟨Phase.camera, by rw [h1, he]⟩
  rcases h2 : outcome Phase.assets with e2 | u2
  · refine ⟨⟨[Phase.lights, Phase.interaction], rfl⟩, ?_, ?_, ?_⟩
    · intro hall; rw [hall Phase.assets] at h2; exact absurd h2 (by simp)
    · intro hc; exact absurd hc (by simp)
    · intro e he; simp at he; exact ⟨Phase.assets, by rw [h2, he]⟩
  rcases h3 : outcome Phase.lights with e3 | u3
  · refine ⟨⟨[Phase.interaction], rfl⟩, ?_, ?_, ?_⟩
    · intro hall; rw [hall Phase.lights] at h3; exact absurd h3 (by simp)
    · intro hc; exact absurd hc (by simp)
    · intro e he; simp at he; exact ⟨Phase.lights, by rw [h3, he]⟩
  rcases h4 : outcome Phase.interaction with e4 | u4
  · refine ⟨⟨[], by simp [scenePhaseOrder]⟩, ?_, ?_, ?_⟩
    · intro hall; rw [hall Phase.interaction] at h4; exact absurd h4 (by simp)
    · intro hc; exact absurd hc (by simp)
    · intro e he; simp at he; exact ⟨Phase.interaction, by rw [h4, he]⟩
  · exact ⟨⟨[], by simp [scenePhaseOrder]⟩, fun _ => rfl, fun _ => rfl, fun e he => by simp at he⟩

/-- C8 witness: with every phase succeeding, all five phases run in the fixed
order with no escaping error. -/
theorem sceneInit_phase_order_witness :
    sceneInitTrace (fun _ => Except.ok ()) = (scenePhaseOrder, none) :=
  (sceneInit_phase_order (fun _ => Except.ok ())).2.1 (fun _ => rfl)

end Meridian
